import Mathlib

/-!
Verification of the fic_archive story-archiving tool.

This file gives a shallow embedding, in Lean 4, of the parts of the Rust
sources that the specification's claims are about:

* `src/structs.rs` — the `StorySource` resolver (`from_url`, `to_id`,
  `to_url`), the `Content` tree, `Story`, `Author`, `AuthorList`;
* `src/main.rs` — `add_story`, `update_story`, `flatten_content`;
* `src/sql.rs` — the relational state (`stories`, `authors`,
  `story_authors`, `sections`, `chapters`, `tags`, `tag_uses` tables),
  `save_story`, `save_content`, `story_exists_with_id`,
  `get_story_by_id` (including its flat-rows-to-tree reconstruction);
* `src/client.rs` — the rate-limit retry loop of `get`;
* `src/parser/royalroad.rs` — `fill_skeleton`.

Modelling conventions:

* Rust `String`s that are scanned character by character (URLs inside the
  resolver) are modelled as `List Char`, abbreviated `Chars`; elsewhere
  Lean `String` is used.
* A Rust function that can panic (`unwrap`, `expect`, `assert!`,
  `panic!`, `unreachable!`) is modelled with an explicit outcome type
  `RustOutcome` (or `Option` where noted) whose `panic` constructor marks
  the panic; the panic message strings are dropped.
* Network and DOM-parsing effects are passed in as explicit oracles
  (functions supplied as arguments), so the pure orchestration logic can
  be analysed for every possible oracle behaviour.
* `DateTime<FixedOffset>` values are carried as their RFC3339 strings:
  `save_content` stores `date_posted.to_rfc3339()` and `get_story_by_id`
  parses the same string back, so the string is a faithful carrier.
* `regex` patterns of `init_regexes` are compiled by hand to character
  matchers, preserving the anchoring, the greedy/optional structure and
  the capture groups of each pattern.  `\d` is modelled as an ASCII
  digit and the unescaped `.` of the ao3 pattern as any non-newline
  character.
-/

/-- Character-list view of a Rust `&str`/`String` (used by the resolver). -/
abbrev Chars := List Char

/-- The term `ArchiveError` from `src/error.rs`.  The `Io`, `Request`, `Database`,
`Parse` and `ParseInt` variants wrap foreign error types whose payloads
the program never inspects, so they are modelled without payloads. -/
inductive ArchiveError where
  | Internal (s : String)
  | BadSource (s : String)
  | NoIdInSource (url : String) (source : String)
  | PageError (s : String)
  | StoryNotExists (s : String)
  | Io
  | Request
  | Database
  | Parse
  | ParseInt
  deriving Repr, DecidableEq

/-- Outcome of running a Rust expression of type `Result<α, ArchiveError>`
whose evaluation may also panic: `ok` and `err` are the two `Result`
variants, `panic` marks an `unwrap`/`expect`/`assert!`/`unreachable!`
failure (the panic message is dropped). -/
inductive RustOutcome (α : Type) where
  | ok (a : α)
  | err (e : ArchiveError)
  | panic
  deriving Repr, DecidableEq

/-- The term `Completed` from `src/structs.rs`. -/
inductive Completed where
  | Complete
  | Incomplete
  | Unknown
  deriving Repr, DecidableEq

/-- The term `Completed::to_string`. -/
def Completed.to_string : Completed → String
  | .Complete => "COMPLETE"
  | .Incomplete => "INCOMPLETE"
  | .Unknown => "UNKNOWN"

/-- The term `Completed::from_string` (any string other than the two known labels
maps to `Unknown`). -/
def Completed.from_string (s : String) : Completed :=
  if s = "COMPLETE" then .Complete
  else if s = "INCOMPLETE" then .Incomplete
  else .Unknown

/-- The term `Author` from `src/structs.rs`: a display name plus a globally stable
site-prefixed id. -/
structure Author where
  name : String
  id : String
  deriving Repr, DecidableEq

/-- The term `AuthorList` from `src/structs.rs`: a wrapper around a non-empty
author vector (the field is private in Rust; it is only built through
`AuthorList::new` and `AuthorList::from_list`). -/
structure AuthorList where
  authors : List Author
  deriving Repr, DecidableEq

/-- The term `AuthorList::new`: the singleton list. -/
def AuthorList.new (author : Author) : AuthorList :=
  ⟨[author]⟩

/-- The term `AuthorList::from_list`.  The Rust body runs
`assert!(authors.len() > 0)` and then wraps the vector; the assertion
failure (empty input) is modelled as `none`. -/
def AuthorList.from_list (authors : List Author) : Option AuthorList :=
  match authors with
  | [] => none
  | a :: rest => some ⟨a :: rest⟩

/-- The term `AuthorList::len`. -/
def AuthorList.len (l : AuthorList) : Nat := l.authors.length

/-- Strip an expected literal head from the input: `dropLead pat u`
returns the remainder of `u` after `pat` when `pat` is an initial
segment of `u`, and `none` otherwise.  This is the building block used
to compile the anchored literal parts of the `init_regexes` patterns. -/
def dropLead : Chars → Chars → Option Chars
  | [], u => some u
  | _ :: _, [] => none
  | p :: ps, c :: cs => if c = p then dropLead ps cs else none

/-- The `https?://` part shared by every pattern of `init_regexes`
except ao3 (whose pattern is `https://` only; it is matched with
`dropLead` directly).  The `s?` is greedy, so the `https://` branch is
tried first. -/
def scheme (u : Chars) : Option Chars :=
  match dropLead "https://".data u with
  | some r => some r
  | none => dropLead "http://".data u

/-- The `(?:www)?\.` part of the ffnet and rr patterns: either a literal
`www.` (the greedy branch, tried first) or a literal `.` alone.  At most
one branch can start the input, so trying `www.` first is faithful to
the backtracking semantics. -/
def wwwDot (u : Chars) : Option Chars :=
  match dropLead "www.".data u with
  | some r => some r
  | none => dropLead ".".data u

/-- The `(?P<id>\d+)` capture followed by `/?.*`: a greedy non-empty run
of digits.  `/?.*` always matches (both parts can be empty), so only the
digit run decides the match, and the capture is the maximal digit run. -/
def digitCapture (r : Chars) : Option Chars :=
  let ds := r.takeWhile Char.isDigit
  if ds.isEmpty then none else some ds

/-- One arbitrary non-newline character: the unescaped `.` in the ao3
pattern `archiveofourown.org` (Rust regex `.` does not match `\n`). -/
def anyNonNL : Chars → Option Chars
  | [] => none
  | c :: cs => if c = '\n' then none else some cs

/-- Capture of the ao3 pattern
`^https://archiveofourown.org/works/(?P<id>\d+)/?.*` (note: no `s?`, and
the `.` before `org` is unescaped, hence `anyNonNL`). -/
def captureAO3 (u : Chars) : Option Chars := do
  let r1 ← dropLead "https://archiveofourown".data u
  let r2 ← anyNonNL r1
  let r3 ← dropLead "org/works/".data r2
  digitCapture r3

/-- Capture of the ffnet pattern
`^https?://(?:www)?\.fanfiction\.net/s/(?P<id>\d+)/?.*`. -/
def captureFfnet (u : Chars) : Option Chars := do
  let r1 ← scheme u
  let r2 ← wwwDot r1
  let r3 ← dropLead "fanfiction.net/s/".data r2
  digitCapture r3

/-- Match of the katalepsis pattern `^https?://katalepsis\.net/?.*`
(no capture group; `/?.*` always matches, so only the literal head
decides). -/
def matchKatalepsis (u : Chars) : Bool :=
  (do
    let r1 ← scheme u
    dropLead "katalepsis.net".data r1).isSome

/-- Capture of the rr pattern
`^https?://(?:www)?\.royalroad\.com/fiction/(?P<id>\d+)/?.*`. -/
def captureRR (u : Chars) : Option Chars := do
  let r1 ← scheme u
  let r2 ← wwwDot r1
  let r3 ← dropLead "royalroad.com/fiction/".data r2
  digitCapture r3

/-- The `([^.]+\.)?(?P<id>\d+)/?.*` tail of the sb and sv patterns.  The
optional group is greedy and, when it matches at all, can only consume
the maximal dot-free head plus the following dot; if the digit run after
it fails, the engine backtracks to skipping the group. -/
def forumTail (r : Chars) : Option Chars :=
  let nd := r.takeWhile (fun c => c ≠ '.')
  if nd.isEmpty then digitCapture r
  else
    match r.drop nd.length with
    | '.' :: r2 =>
      match digitCapture r2 with
      | some ds => some ds
      | none => digitCapture r
    | _ => digitCapture r

/-- Capture of the sb pattern
`^https?://forums\.spacebattles\.com/threads/([^.]+\.)?(?P<id>\d+)/?.*`. -/
def captureSB (u : Chars) : Option Chars := do
  let r1 ← scheme u
  let r2 ← dropLead "forums.spacebattles.com/threads/".data r1
  forumTail r2

/-- Capture of the sv pattern
`^https?://forums\.sufficientvelocity\.com/threads/([^.]+\.)?(?P<id>\d+)/?.*`. -/
def captureSV (u : Chars) : Option Chars := do
  let r1 ← scheme u
  let r2 ← dropLead "forums.sufficientvelocity.com/threads/".data r1
  forumTail r2

/-- The source tags of `init_regexes`, in declaration order.  Note that
`ffnet` has a rule but `StorySource` has no matching variant. -/
inductive RuleTag where
  | ao3
  | ffnet
  | katalepsis
  | rr
  | sb
  | sv
  deriving Repr, DecidableEq

/-- The ordered rule list of `init_regexes`. -/
def RULES : List RuleTag := [.ao3, .ffnet, .katalepsis, .rr, .sb, .sv]

/-- The term `regex.is_match(url)` for each rule.  For every rule whose pattern
contains the `id` group, a match always produces the capture (the group
is not optional), so the match test is the capture test. -/
def ruleMatches : RuleTag → Chars → Bool
  | .ao3, u => (captureAO3 u).isSome
  | .ffnet, u => (captureFfnet u).isSome
  | .katalepsis, u => matchKatalepsis u
  | .rr, u => (captureRR u).isSome
  | .sb, u => (captureSB u).isSome
  | .sv, u => (captureSV u).isSome

/-- The term `StorySource` from `src/structs.rs`.  Every variant except
`Katalepsis` carries the site-native story id (a `String` in Rust,
carried here as `Chars` because the resolver works character-wise). -/
inductive StorySource where
  | AO3 (id : Chars)
  | Katalepsis
  | RoyalRoad (id : Chars)
  | SpaceBattles (id : Chars)
  | SufficientVelocity (id : Chars)
  deriving Repr, DecidableEq

/-- The term `StorySource::from_url`: try the rules in order, first match wins;
no match is `BadSource`; a match whose (mandatory) `id` group were
missing would be `NoIdInSource`; a match of the `ffnet` rule hits the
catch-all `panic!` branch because no `StorySource` variant exists for
it. -/
def StorySource.from_url (u : Chars) : RustOutcome StorySource :=
  match RULES.find? (fun t => ruleMatches t u) with
  | none => .err (.BadSource (String.mk u))
  | some .ao3 =>
    match captureAO3 u with
    | some id => .ok (.AO3 id)
    | none => .err (.NoIdInSource (String.mk u) "ao3")
  | some .ffnet => .panic
  | some .katalepsis => .ok .Katalepsis
  | some .rr =>
    match captureRR u with
    | some id => .ok (.RoyalRoad id)
    | none => .err (.NoIdInSource (String.mk u) "rr")
  | some .sb =>
    match captureSB u with
    | some id => .ok (.SpaceBattles id)
    | none => .err (.NoIdInSource (String.mk u) "sb")
  | some .sv =>
    match captureSV u with
    | some id => .ok (.SufficientVelocity id)
    | none => .err (.NoIdInSource (String.mk u) "sv")

/-- The term `StorySource::prefix` (renamed: the Rust method is called after the
site tag). -/
def StorySource.siteTag : StorySource → String
  | .AO3 _ => "ao3"
  | .Katalepsis => "katalepsis"
  | .RoyalRoad _ => "rr"
  | .SpaceBattles _ => "sb"
  | .SufficientVelocity _ => "sv"

/-- The term `StorySource::to_id`: `"{prefix}:{site_id}"`, or the bare tag for
`Katalepsis`. -/
def StorySource.to_id : StorySource → String
  | .AO3 id => String.mk ("ao3:".data ++ id)
  | .Katalepsis => "katalepsis"
  | .RoyalRoad id => String.mk ("rr:".data ++ id)
  | .SpaceBattles id => String.mk ("sb:".data ++ id)
  | .SufficientVelocity id => String.mk ("sv:".data ++ id)

/-- The term `StorySource::to_url`: the canonical fetchable URL (as `Chars`). -/
def StorySource.to_url : StorySource → Chars
  | .AO3 id => "https://archiveofourown.org/works/".data ++ id
  | .Katalepsis => "https://katalepsis.net".data
  | .RoyalRoad id => "https://www.royalroad.com/fiction/".data ++ id
  | .SpaceBattles id => "https://forums.spacebattles.com/threads/".data ++ id
  | .SufficientVelocity id =>
    "https://forums.sufficientvelocity.com/threads/".data ++ id

/-- The term `StorySource::to_url` as a Lean `String` (for the database layer,
which stores the URL in the `stories` table). -/
def StorySource.to_url_str (s : StorySource) : String :=
  String.mk s.to_url

/-- The term `ChapterText` from `src/structs.rs`. -/
inductive ChapterText where
  | Hydrated (text : String)
  | Dehydrated
  deriving Repr, DecidableEq

/-- The term `ChapterText::as_str` (`Dehydrated` renders as the empty string). -/
def ChapterText.as_str : ChapterText → String
  | .Hydrated s => s
  | .Dehydrated => ""

/-- The term `Content` from `src/structs.rs`: the recursive Section/Chapter sum
type.  The Rust `Section` and `Chapter` structs are inlined as the two
constructors, with their fields in declaration order.  `sect` is
`Section { id, name, description, chapters, url, author }`; `chapter` is
`Chapter { id, name, description, text, url, date_posted, author }`,
with `date_posted` carried as its RFC3339 string. -/
inductive Content where
  | sect (id : String) (name : String) (description : Option String)
      (chapters : List Content) (url : Option String)
      (author : Option Author)
  | chapter (id : String) (name : String) (description : Option String)
      (text : ChapterText) (url : String) (date_posted : String)
      (author : Option Author)
  deriving Repr

/-- The term `Content::id`. -/
def Content.id : Content → String
  | .sect id _ _ _ _ _ => id
  | .chapter id _ _ _ _ _ _ => id

mutual

/-- The term `Content::find_child` (only sections have children; the result pairs
the found node with its immediate `Section` parent, as in the Rust
`FindChapter` struct). -/
def Content.find_child (self : Content) (id : String) :
    Option (Content × Option Content) :=
  match self with
  | .chapter .. => none
  | .sect _ _ _ cs _ _ => find_child_list self cs id

/-- The `find_map` loop inside `Content::find_child`: first direct child
with the id wins (with `parent` the enclosing section); otherwise
recurse into child sections in order. -/
def find_child_list (parent : Content) :
    List Content → String → Option (Content × Option Content)
  | [], _ => none
  | con :: rest, id =>
    if con.id = id then some (con, some parent)
    else
      match con.find_child id with
      | some r => some r
      | none => find_child_list parent rest id

end

/-- The `find_map` loop inside `Story::find_chapter`: a top-level node
has no parent; non-matching sections are searched recursively. -/
def find_top : List Content → String → Option (Content × Option Content)
  | [], _ => none
  | con :: rest, id =>
    if con.id = id then some (con, none)
    else
      match con.find_child id with
      | some r => some r
      | none => find_top rest id

mutual

/-- The term `Section::num_chapters` / the chapter-counting fold of
`Story::num_chapters`: count only `Chapter` leaves. -/
def Content.num_chapters : Content → Nat
  | .chapter .. => 1
  | .sect _ _ _ cs _ _ => num_chapters_list cs

/-- Fold of `Content.num_chapters` over a child list. -/
def num_chapters_list : List Content → Nat
  | [] => 0
  | c :: cs => c.num_chapters + num_chapters_list cs

end

/-- The term `Story` from `src/structs.rs`. -/
structure Story where
  name : String
  authors : AuthorList
  description : Option String
  url : String
  tags : List String
  chapters : List Content
  source : StorySource
  completed : Completed

/-- The term `Story::num_chapters`. -/
def Story.num_chapters (st : Story) : Nat := num_chapters_list st.chapters

/-- The term `Story::find_chapter`. -/
def Story.find_chapter (st : Story) (id : String) :
    Option (Content × Option Content) :=
  find_top st.chapters id

/-- The term `HashSet::insert` on the list model of a `HashSet<String>`: keep the
list duplicate-free by refusing already-present elements.  Iteration
order of the Rust `HashSet` is unspecified; this model fixes it to first
insertion order, which only determines the order (never the membership)
of the id list diffed by `update_story`. -/
def hashInsert (set : List String) (s : String) : List String :=
  if s ∈ set then set else set ++ [s]

mutual

/-- The term `flatten_content` from `src/main.rs`: insert the node's own id, then
descend into section children. -/
def flatten_content (set : List String) : Content → List String
  | .chapter id _ _ _ _ _ _ => hashInsert set id
  | .sect id _ _ cs _ _ => flatten_content_list (hashInsert set id) cs

/-- The `for chapter in s.chapters` loop inside `flatten_content`. -/
def flatten_content_list (set : List String) : List Content → List String
  | [] => set
  | c :: cs => flatten_content_list (flatten_content set c) cs

end

/-- The ids of a story's content forest, as collected by the two
`for_each(|chap| flatten_content(&mut set, chap))` loops in
`update_story`. -/
def storyIds (chapters : List Content) : List String :=
  flatten_content_list [] chapters

/-- The `new_chapters` list of `update_story`: fetched ids that are not
already persisted (the set difference, in list form). -/
def new_chapter_ids (existing fresh : Story) : List String :=
  (storyIds fresh.chapters).filter
    (fun c => ¬ (storyIds existing.chapters).contains c)

/-- The value of a `retry-after` response header as the client sees it:
either a text value or bytes that are not valid UTF-8 (in which case
`HeaderValue::to_str` errors and the client substitutes `"60"`). -/
inductive HeaderValue where
  | str (s : String)
  | notUtf8
  deriving Repr, DecidableEq

/-- An HTTP response as far as `client::get` inspects it: a status code,
the optional `retry-after` header, and an opaque body (carried so that
"returned unmodified" is expressible). -/
structure HttpResponse where
  status : Nat
  retryAfter : Option HeaderValue
  body : String
  deriving Repr, DecidableEq

/-- One `client.get(url).send().await` outcome: a transport failure
(which `?` propagates as `ArchiveError::Request`) or a response. -/
inductive FetchEvent where
  | failed
  | response (r : HttpResponse)
  deriving Repr, DecidableEq

/-- Unsigned decimal digit run to a number. -/
def digitsToNat (l : Chars) : Nat :=
  l.foldl (fun acc c => acc * 10 + (c.toNat - '0'.toNat)) 0

/-- The term `u64::from_str_radix(s, 10)`: an optional `+` sign, then a
non-empty ASCII digit run whose value fits in 64 bits.  A leading `-` is
rejected outright for unsigned target types (`InvalidDigit`), and values
of `2^64` or more overflow.  `none` is the `Err` case. -/
def parseU64 (s : String) : Option Nat :=
  let core : Chars → Option Nat := fun l =>
    if l.isEmpty then none
    else if l.all Char.isDigit then
      if digitsToNat l < 2 ^ 64 then some (digitsToNat l) else none
    else none
  match s.data with
  | '+' :: rest => core rest
  | '-' :: _ => none
  | l => core l

/-- The string the client feeds to `u64::from_str_radix`: the header
text when present and valid UTF-8, `"60"` otherwise (the `map_or_else`
and `unwrap_or` defaults). -/
def retryHeaderString : Option HeaderValue → String
  | none => "60"
  | some .notUtf8 => "60"
  | some (.str s) => s

/-- The sleep the client performs for one 429 response; `none` is the
`expect("retry-after header ... is not a number")` panic. -/
def retryWait (h : Option HeaderValue) : Option Nat :=
  parseU64 (retryHeaderString h)

/-- Result of `client::get` over a response stream: the list in each
constructor records the sleeps (in seconds) performed before the
outcome.  `starved` means the supplied event stream ended while the
retry loop still wanted to re-issue the request (the real loop never
terminates without a non-429 outcome). -/
inductive ClientResult where
  | ok (sleeps : List Nat) (r : HttpResponse)
  | transportErr (sleeps : List Nat)
  | panicked (sleeps : List Nat)
  | starved
  deriving Repr, DecidableEq

/-- The term `client::get` from `src/client.rs`.  The network is an oracle: the
`events` list gives, in order, the outcome of each issue of the one
(identical) request.  A non-429 response is returned unmodified; a 429
response triggers a sleep of `retryWait` seconds and a re-issue; a
transport failure is propagated by `?` with no retry. -/
def client_get (events : List FetchEvent) (sleeps : List Nat) : ClientResult :=
  match events with
  | [] => .starved
  | .failed :: _ => .transportErr sleeps
  | .response r :: rest =>
    if r.status = 429 then
      match retryWait r.retryAfter with
      | none => .panicked sleeps
      | some n => client_get rest (sleeps ++ [n])
    else .ok sleeps r

/-- A row of the `stories` table.  Note on fidelity: the `CREATE TABLE`
in `init_db` omits an `author_id` column, and the INSERT in `save_story`
names five columns while binding six values, but every query that reads
the table (`get_all_stories`, `get_story_by_id`) selects `author_id`,
and the bound values are (id, name, description, url, first-author-id,
completed); the model uses that evident six-column schema. -/
structure StoryRow where
  id : String
  name : String
  description : Option String
  url : String
  author_id : String
  completed : String
  deriving Repr, DecidableEq

/-- A row of the `authors` table. -/
structure AuthorRow where
  id : String
  name : String
  deriving Repr, DecidableEq

/-- A row of the `sections` table (the INSERT in `save_content` lists
six columns for seven bound values; the model uses the seven-column
schema of `init_db`, which includes `author_id`). -/
structure SectionRow where
  id : String
  name : String
  description : Option String
  url : Option String
  story_id : String
  parent_id : Option String
  author_id : Option String
  deriving Repr, DecidableEq

/-- A row of the `chapters` table (`init_db` never creates this table —
its `CREATE TABLE sections` statement is duplicated instead — but
`save_content` and `get_story_by_id` read and write it with the columns
modelled here, matching §6 of the specification). -/
structure ChapterRow where
  id : String
  name : String
  description : Option String
  text : String
  url : String
  date_posted : String
  story_id : String
  section_id : Option String
  author_id : Option String
  deriving Repr, DecidableEq

/-- A row of the `tags` table. -/
structure TagRow where
  id : String
  name : String
  deriving Repr, DecidableEq

/-- A row of the `tag_uses` table (no uniqueness constraint). -/
structure TagUseRow where
  tag_id : String
  story_id : String
  deriving Repr, DecidableEq

/-- The relational state: each table as a list of rows in insertion order
(SELECT without ORDER BY is modelled as returning insertion order). -/
structure DBState where
  stories : List StoryRow
  authors : List AuthorRow
  story_authors : List (String × String)
  sections : List SectionRow
  chapters : List ChapterRow
  tags : List TagRow
  tag_uses : List TagUseRow
  deriving Repr, DecidableEq

/-- The term `INSERT OR IGNORE INTO authors`: keyed on the `id` primary key; an
existing row is left untouched. -/
def insertAuthorIgnore (db : DBState) (a : Author) : DBState :=
  if db.authors.any (fun r => r.id = a.id) then db
  else { db with authors := db.authors ++ [⟨a.id, a.name⟩] }

/-- Plain `INSERT INTO chapters` (duplicate primary key panics).  The
chapters statement itself is well-formed (nine columns, nine bound
values), but note that `init_db` never creates a `chapters` table (its
second CREATE duplicates `sections`): the table only exists on a
database file whose schema was supplied externally, as states of
`DBState` assume. -/
def insertChapterRow (db : DBState) (r : ChapterRow) : Option DBState :=
  if db.chapters.any (fun x => x.id = r.id) then none
  else some { db with chapters := db.chapters ++ [r] }

/-- The term `INSERT OR IGNORE INTO tags`. -/
def insertTagIgnore (db : DBState) (tagId tagName : String) : DBState :=
  if db.tags.any (fun r => r.id = tagId) then db
  else { db with tags := db.tags ++ [⟨tagId, tagName⟩] }

/-- The term `INSERT OR IGNORE INTO tag_uses`: the table has no uniqueness
constraint, so the row is always inserted. -/
def insertTagUse (db : DBState) (tagId storyId : String) : DBState :=
  { db with tag_uses := db.tag_uses ++ [⟨tagId, storyId⟩] }

/-- The term `Database::save_content` from `src/sql.rs`.  The Section
branch ALWAYS panics: its SQL names six columns
(`id, name, description, url, story_id, parent_id`) but writes
`VALUES (?1, ..., ?7)` — seven placeholders for six columns is a
prepare-time SQLite error, so `conn.execute(..)` returns `Err` and the
`.unwrap()` fires before any row is written and before the children are
visited.  The Chapter branch's statement is well-formed; on a database
that has a `chapters` table it inserts the row, and a duplicate primary
key makes the `.expect(..)` panic. -/
def save_content (db : DBState) (c : Content) (story_id : String)
    (parent_id : Option String) : RustOutcome Unit × DBState :=
  match c with
  | .sect _ _ _ _ _ _ => (.panic, db)
  | .chapter id name description text url date_posted author =>
    match insertChapterRow db
        ⟨id, name, description, text.as_str, url, date_posted, story_id,
          parent_id, author.map (fun a => a.id)⟩ with
    | none => (.panic, db)
    | some db1 => (.ok (), db1)

/-- The `for inner in chapters.iter()` loop of `save_content` (reached
only from `save_story`, whose own panic comes first, and from the
`update_story` save loop). -/
def save_content_list (db : DBState) (cs : List Content) (story_id : String)
    (parent_id : Option String) : RustOutcome Unit × DBState :=
  match cs with
  | [] => (.ok (), db)
  | c :: rest =>
    match save_content db c story_id parent_id with
    | (.ok _, db1) => save_content_list db1 rest story_id parent_id
    | other => other

/-- The term `Database::save_story` from `src/sql.rs`.  The author loop
(`INSERT OR IGNORE INTO authors`, a well-formed statement) completes
first; then the stories INSERT ALWAYS panics: its SQL names five columns
(`id, name, description, url, completed`) with placeholders `?1`–`?5`,
but the code binds SIX values (id, name, description, url, the FIRST
author's id, completed), so rusqlite reports `InvalidParameterCount` and
the `.unwrap()` fires on every call — for an empty author list the
`.iter().next().unwrap()` in the parameter tuple panics even earlier.
Consequently no stories row, no content row and no tag row is ever
written by `save_story`, and `story_authors` is never written by any
code path. -/
def save_story (db : DBState) (story : Story) : RustOutcome Unit × DBState :=
  let db1 := story.authors.authors.foldl insertAuthorIgnore db
  (.panic, db1)

/-- The term `Database::story_exists_with_id`: the row-mapping closure treats a
`COUNT(*)` of exactly 1 as "exists" and anything else (including several
rows) as "does not exist". -/
def story_exists_with_id (db : DBState) (id : String) : Bool :=
  (db.stories.filter (fun r => r.id = id)).length = 1

/-- The `sections` query of `get_story_by_id`: rows for the story, in
insertion order, each as (parent section id, a `Section` with an empty
child list; `author` is not selected and is `None`). -/
def initial_sections (db : DBState) (story_id : String) :
    List (Option String × Content) :=
  (db.sections.filter (fun r => r.story_id = story_id)).map
    (fun r => (r.parent_id, Content.sect r.id r.name r.description [] r.url none))

/-- The `chapters` query of `get_story_by_id`: rows for the story, each
as (parent section id, a `Chapter` with `Hydrated` text; `author` is not
selected and is `None`).  The stored RFC3339 string is carried as the
date value itself. -/
def initial_chapters (db : DBState) (story_id : String) :
    List (Option String × Content) :=
  (db.chapters.filter (fun r => r.story_id = story_id)).map
    (fun r => (r.section_id,
      Content.chapter r.id r.name r.description (.Hydrated r.text) r.url
        r.date_posted none))

/-- Append a child to a section's child list (`section.chapters.push`). -/
def appendChild : Content → Content → Content
  | .sect id n d cs u a, child => .sect id n d (cs ++ [child]) u a
  | c, _ => c

/-- The term `sections.iter_mut().find(|(_, s)| s.id == parent_id)` followed by a
`push` into the found section: the first section with the wanted id
receives the child; `none` when no section matches. -/
def pushChild : List (Option String × Content) → String → Content →
    Option (List (Option String × Content))
  | [], _, _ => none
  | (p, s) :: rest, pid, child =>
    if s.id = pid then some ((p, appendChild s child) :: rest)
    else
      match pushChild rest pid child with
      | some l => some ((p, s) :: l)
      | none => none

/-- Lexicographic order on character lists: the order `str::cmp` (and
hence `a.id().cmp(b.id())`) compares by — Rust compares UTF-8 bytes,
which orders exactly as code points do. -/
def charsLe : Chars → Chars → Bool
  | [], _ => true
  | _ :: _, [] => false
  | a :: as, b :: bs =>
    if a < b then true else if b < a then false else charsLe as bs

/-- Lexicographic order on ids (`Ord::cmp` on `&str`). -/
def idLe (a b : String) : Bool := charsLe a.data b.data

/-- Insert into a list already sorted by id (stable). -/
def insertSorted (c : Content) : List Content → List Content
  | [] => [c]
  | d :: ds => if idLe c.id d.id then c :: d :: ds else d :: insertSorted c ds

/-- The term `par_sort_unstable_by(|a, b| a.id().cmp(b.id()))`, modelled as an
insertion sort: both are comparison sorts on the lexicographic order of
ids, so they agree whenever ids are distinct (Rust's byte-wise `&str`
order and Lean's `String` order coincide, UTF-8 byte order being
code-point order). -/
def sortContents (l : List Content) : List Content :=
  l.foldr insertSorted []

/-- Sort a section's children by id (no-op on chapters). -/
def sortChildren : Content → Content
  | .sect id n d cs u a => .sect id n d (sortContents cs) u a
  | c => c

/-- The chapter-folding loop of `get_story_by_id`
(`for idx in (0..chapters.len() - 1).rev()`): starting from
`chapterFold secs chaps (chaps.length - 1)`, indices
`len - 2, …, 0` are processed — the LAST chapter row is never examined.
A chapter row with a `section_id` is removed and pushed into its parent
section; a missing parent is the `panic!("Chapter … has section_id …")`
(`none`).  Removals only ever happen at the index being processed, so
lower indices still address the original rows. -/
def chapterFold (secs chaps : List (Option String × Content)) :
    Nat → Option (List (Option String × Content) × List (Option String × Content))
  | 0 => some (secs, chaps)
  | i + 1 =>
    match chaps[i]? with
    | none => none
    | some (pid?, ch) =>
      match pid? with
      | none => chapterFold secs chaps i
      | some pid =>
        match pushChild secs pid ch with
        | none => none
        | some secs1 => chapterFold secs1 (chaps.eraseIdx i) i

/-- The section-folding loop of `get_story_by_id`
(`for idx in (0..sections.len() - 1).rev()`, so again the LAST section
row is never examined): each processed section first has its children
sorted in place; if it declares a parent it is removed and pushed into
the first section with that id — and silently dropped when no such
section exists (the Rust code has no `else` branch here). -/
def sectionFold (secs : List (Option String × Content)) :
    Nat → Option (List (Option String × Content))
  | 0 => some secs
  | i + 1 =>
    match secs[i]? with
    | none => none
    | some (pid?, s) =>
      let s1 := sortChildren s
      let secs1 := secs.set i (pid?, s1)
      match pid? with
      | none => sectionFold secs1 i
      | some pid =>
        let secs2 := secs1.eraseIdx i
        match pushChild secs2 pid s1 with
        | some l => sectionFold l i
        | none => sectionFold secs2 i

/-- Lines 211–255 of `src/sql.rs`: fold chapters into sections, fold
sections into parent sections, then chain leftover sections before
leftover chapters and sort that top level by id.  `none` is the
missing-parent panic (the `chaps[i]?`/`secs[i]?` misses cannot occur
from the entry indices used below). -/
def reconstruct_story_chapters
    (sectionRows chapterRows : List (Option String × Content)) :
    Option (List Content) := do
  let (secs, chaps) ← chapterFold sectionRows chapterRows
    (chapterRows.length - 1)
  let secs2 ← sectionFold secs (secs.length - 1)
  some (sortContents (secs2.map Prod.snd ++ chaps.map Prod.snd))

/-- The term `String::replace(AUTHOR_LIST_SEPARATOR, ", ")`: every `';'` becomes
`", "`. -/
def sepReplace (s : String) : String :=
  String.mk (s.data.flatMap (fun c => if c = ';' then [',', ' '] else [c]))

/-- The author lookup of `get_story_by_id` (lines 272–292): read the
`author_id` column of the stories row, replace `';'` separators, then
run `SELECT id, name FROM authors WHERE id IN (?)` — the whole string is
bound as ONE parameter, so only an author whose id equals the entire
string matches.  `none` is the `?`-propagated Database error when the
stories row is missing. -/
def get_story_authors (db : DBState) (id : String) : Option (List Author) :=
  match db.stories.find? (fun r => r.id = id) with
  | none => none
  | some row =>
    let author_ids := sepReplace row.author_id
    some ((db.authors.filter (fun a => a.id = author_ids)).map
      (fun r => Author.mk r.name r.id))

/-- The tag lookup of `get_story_by_id`:
`tag_uses INNER JOIN tags ON tags.id = tag_uses.tag_id`. -/
def get_story_tags (db : DBState) (id : String) : List String :=
  (db.tag_uses.filter (fun tu => tu.story_id = id)).flatMap
    (fun tu => (db.tags.filter (fun t => t.id = tu.tag_id)).map
      (fun t => t.name))

/-- The term `Database::get_story_by_id` from `src/sql.rs`.  `ok none` when the
story id is absent; otherwise reconstruct the content tree (possible
panic), collect tags, resolve the author list (a missing stories row on
the author query would be a Database error; an empty author list panics
in `AuthorList::from_list`), read the stories row and re-resolve the
source from the stored URL (`from_url(...).unwrap()`, a panic when the
URL no longer classifies). -/
def get_story_by_id (db : DBState) (id : String) : RustOutcome (Option Story) :=
  if ¬ story_exists_with_id db id then .ok none
  else
    match reconstruct_story_chapters (initial_sections db id)
        (initial_chapters db id) with
    | none => .panic
    | some story_chapters =>
      let story_tags := get_story_tags db id
      match get_story_authors db id with
      | none => .err .Database
      | some authors =>
        match db.stories.find? (fun r => r.id = id) with
        | none => .panic
        | some row =>
          match AuthorList.from_list authors with
          | none => .panic
          | some alist =>
            match StorySource.from_url row.url.data with
            | .ok source =>
              .ok (some
                { name := row.name
                  authors := alist
                  description := row.description
                  url := row.url
                  tags := story_tags
                  chapters := story_chapters
                  source := source
                  completed := Completed.from_string row.completed })
            | _ => .panic

/-- A site adapter as `update_story`/`add_story` consume it: the
`get_skeleton` result and the `fill_skeleton` function are oracles
(network and DOM parsing are outside the model). -/
structure ParserOracle where
  getSkeleton : Except ArchiveError Story
  fill : Story → Except ArchiveError Story

/-- The term `Parser::get_story`: skeleton fetch then hydration (as implemented
by every adapter, e.g. `RoyalRoadParser::get_story`). -/
def ParserOracle.getStory (g : ParserOracle) : Except ArchiveError Story :=
  match g.getSkeleton with
  | .error e => .error e
  | .ok sk => g.fill sk

/-- Map over the `ok` value of a `RustOutcome`. -/
def RustOutcome.map {α β : Type} (f : α → β) : RustOutcome α → RustOutcome β
  | .ok a => .ok (f a)
  | .err e => .err e
  | .panic => .panic

/-- What one call of `update_story` did: its return value, the final
database, how many times `fill_skeleton` ran, and the arguments of each
`db.save_content` call made by the diff path (content id, story id,
parent id). -/
structure UpdateOutput where
  result : RustOutcome Nat
  db : DBState
  fills : Nat
  saves : List (String × String × Option String)
  deriving Repr, DecidableEq

/-- The `for chapter in new_chapters` loop of `update_story`: look each
new id up in the hydrated story (`unreachable!` — `panic` — when
absent), persist it standalone against the existing story's id with its
immediate parent, and count it. -/
def save_new_chapters (new_story : Story) :
    DBState → List String → Nat → List (String × String × Option String) →
    RustOutcome Nat × DBState × List (String × String × Option String)
  | db, [], added, saves => (.ok added, db, saves)
  | db, id :: rest, added, saves =>
    match new_story.find_chapter id with
    | none => (.panic, db, saves)
    | some (found, parent) =>
      match save_content db found new_story.source.to_id
          (parent.map Content.id) with
      | (.ok _, db1) =>
        save_new_chapters new_story db1 rest (added + 1)
          (saves ++ [(found.id, new_story.source.to_id,
            parent.map Content.id)])
      | (_, db1) => (.panic, db1, saves)

/-- The term `update_story` from `src/main.rs`.  Force path: full `get_story`
(skeleton + one fill) and `save_story`.  Non-force path: load the
persisted story (`StoryNotExists` when absent), fetch a fresh skeleton,
diff the flattened id sets, and — only when new ids exist — hydrate the
fresh skeleton once and persist each new node. -/
def update_story (source : StorySource) (force_refresh : Bool)
    (db : DBState) (g : ParserOracle) : UpdateOutput :=
  if force_refresh then
    match g.getSkeleton with
    | .error e => ⟨.err e, db, 0, []⟩
    | .ok sk =>
      match g.fill sk with
      | .error e => ⟨.err e, db, 1, []⟩
      | .ok story =>
        match save_story db story with
        | (.ok _, db1) => ⟨.ok story.num_chapters, db1, 1, []⟩
        | (_, db1) => ⟨.panic, db1, 1, []⟩
  else
    match get_story_by_id db source.to_id with
    | .panic => ⟨.panic, db, 0, []⟩
    | .err e => ⟨.err e, db, 0, []⟩
    | .ok none => ⟨.err (.StoryNotExists source.to_url_str), db, 0, []⟩
    | .ok (some existing) =>
      match g.getSkeleton with
      | .error e => ⟨.err e, db, 0, []⟩
      | .ok fresh =>
        let news := new_chapter_ids existing fresh
        if news.isEmpty then ⟨.ok 0, db, 0, []⟩
        else
          match g.fill fresh with
          | .error e => ⟨.err e, db, 1, []⟩
          | .ok new_story =>
            match save_new_chapters new_story db news 0 [] with
            | (res, db1, saves) => ⟨res, db1, 1, saves⟩

/-- What one call of `add_story` did (the Rust function returns
`Result<()>`). -/
structure AddOutput where
  result : RustOutcome Unit
  db : DBState
  fills : Nat
  saves : List (String × String × Option String)
  deriving Repr, DecidableEq

/-- The term `add_story` from `src/main.rs`: when a story with the canonical id
already exists, run the non-force `update_story` instead; otherwise do
the full `get_story` fetch and `save_story`. -/
def add_story (source : StorySource) (db : DBState) (g : ParserOracle) :
    AddOutput :=
  if story_exists_with_id db source.to_id then
    match update_story source false db g with
    | ⟨res, db1, fills, saves⟩ => ⟨res.map (fun _ => ()), db1, fills, saves⟩
  else
    match g.getSkeleton with
    | .error e => ⟨.err e, db, 0, []⟩
    | .ok sk =>
      match g.fill sk with
      | .error e => ⟨.err e, db, 1, []⟩
      | .ok story =>
        match save_story db story with
        | (.ok _, db1) => ⟨.ok (), db1, 1, []⟩
        | (_, db1) => ⟨.panic, db1, 1, []⟩

/-- The URLs `RoyalRoadParser::fill_skeleton` fetches: the hydration
batch is the story's top-level chapters (`iter_mut().filter_map` does
not descend into sections). -/
def topChapterUrls (st : Story) : List String :=
  st.chapters.filterMap (fun c =>
    match c with
    | .chapter _ _ _ _ url _ _ => some url
    | .sect .. => none)

/-- The term `RoyalRoadParser::fill_skeleton`: issue every chapter-page fetch of
the batch; if ANY fetch failed, fail the whole call with
`Internal("Oopsie!")` and commit nothing; otherwise set each top-level
chapter's text to the extracted body of its page.  `fetch` is the
network oracle (a function, so re-reading a url gives the one response
`join_all` collected); `extract` is the DOM body-extraction oracle. -/
def rr_fill_skeleton (fetch : String → Except ArchiveError String)
    (extract : String → String) (skeleton : Story) :
    Except ArchiveError Story :=
  let results := (topChapterUrls skeleton).map fetch
  if results.any (fun r => match r with | .error _ => true | .ok _ => false)
  then .error (.Internal "Oopsie!")
  else .ok { skeleton with
    chapters := skeleton.chapters.map (fun c =>
      match c with
      | .chapter id n d t url dp a =>
        match fetch url with
        | .ok page => .chapter id n d (.Hydrated (extract page)) url dp a
        | .error _ => .chapter id n d t url dp a
      | s => s) }

/-- The parts of the database no `save_content` call touches: every
table except `sections` and `chapters`. -/
def contentFreePart (db : DBState) :
    List StoryRow × List AuthorRow × List (String × String) × List TagRow ×
      List TagUseRow :=
  (db.stories, db.authors, db.story_authors, db.tags, db.tag_uses)

/-- The empty database. -/
def emptyDb : DBState := ⟨[], [], [], [], [], [], []⟩

/-- Concrete persisted state used by witnesses: one RoyalRoad story
`rr:1` by author `rr:a1` with a single top-level chapter `rr:1:1`. -/
def exDb : DBState :=
  { stories := [⟨"rr:1", "Story", none, "https://www.royalroad.com/fiction/1",
      "rr:a1", "COMPLETE"⟩]
    authors := [⟨"rr:a1", "Auth"⟩]
    story_authors := []
    sections := []
    chapters := [⟨"rr:1:1", "Ch1", none, "txt", "u1",
      "2020-01-01T00:00:00+00:00", "rr:1", none, none⟩]
    tags := []
    tag_uses := [] }

/-- The story `get_story_by_id exDb "rr:1"` reconstructs. -/
def exExisting : Story :=
  { name := "Story"
    authors := ⟨[⟨"Auth", "rr:a1"⟩]⟩
    description := none
    url := "https://www.royalroad.com/fiction/1"
    tags := []
    chapters := [.chapter "rr:1:1" "Ch1" none (.Hydrated "txt") "u1"
      "2020-01-01T00:00:00+00:00" none]
    source := .RoyalRoad ['1']
    completed := .Complete }

/-- A fresh skeleton carrying exactly the persisted chapter id (an
up-to-date story: the diff is empty). -/
def exFreshSame : Story :=
  { exExisting with
    chapters := [.chapter "rr:1:1" "Ch1" none .Dehydrated "u1"
      "2020-01-01T00:00:00+00:00" none] }

/-- An adapter oracle returning `exFreshSame` with identity hydration. -/
def exOracleSame : ParserOracle := ⟨.ok exFreshSame, fun st => .ok st⟩

/-- A fresh skeleton with one genuinely new chapter `rr:1:2` at url
`u2`. -/
def exFreshNew : Story :=
  { exExisting with
    chapters := [.chapter "rr:1:1" "Ch1" none .Dehydrated "u1" "d1" none,
      .chapter "rr:1:2" "Ch2" none .Dehydrated "u2" "d2" none] }

/-- A network oracle whose fetch of url `u2` fails. -/
def exFetch : String → Except ArchiveError String :=
  fun u => if u = "u2" then .error .Request else .ok "page"

/-- A DOM body-extraction oracle. -/
def exExtract : String → String := fun _ => "body"

/-- A story whose content forest is one section containing one chapter
(the failing input of the reconstruction off-by-one). -/
def exStory2 : Story :=
  { name := "S2"
    authors := ⟨[⟨"Auth2", "rr:a2"⟩]⟩
    description := none
    url := "https://www.royalroad.com/fiction/2"
    tags := []
    chapters := [.sect "rr:2:s1" "Sec1" none
      [.chapter "rr:2:c1" "C1" none (.Hydrated "t") "u" "d" none] none none]
    source := .RoyalRoad ['2']
    completed := .Unknown }

/-- A database with the schema of spec section 6 (supplied externally —
`Database::new` opens whatever file path it is given) that already holds
the rows of `exStory2`: the section `rr:2:s1` and, as the LAST chapter
row, `rr:2:c1` declaring that section as its parent. -/
def exDb2 : DBState :=
  { stories := [⟨"rr:2", "S2", none, "https://www.royalroad.com/fiction/2",
      "rr:a2", "UNKNOWN"⟩]
    authors := [⟨"rr:a2", "Auth2"⟩]
    story_authors := []
    sections := [⟨"rr:2:s1", "Sec1", none, none, "rr:2", none, none⟩]
    chapters := [⟨"rr:2:c1", "C1", none, "t", "u", "d", "rr:2",
      some "rr:2:s1", none⟩]
    tags := []
    tag_uses := [] }

/-- A story with two authors (for the multi-author persistence claim). -/
def exStory10 : Story :=
  { name := "S10"
    authors := ⟨[⟨"A1", "x:a1"⟩, ⟨"A2", "x:a2"⟩]⟩
    description := none
    url := "https://katalepsis.net"
    tags := []
    chapters := []
    source := .Katalepsis
    completed := .Unknown }

/-- The term `takeWhile` keeps everything when the predicate holds throughout. -/
theorem takeWhile_eq_self {α : Type} {p : α → Bool} :
    ∀ {l : List α}, (∀ c ∈ l, p c = true) → l.takeWhile p = l := by
  intro l
  induction l with
  | nil => intro _; rfl
  | cons a l ih =>
    intro h
    have ha : p a = true := h a (by simp)
    rw [List.takeWhile_cons, if_pos ha, ih (fun c hc => h c (by simp [hc]))]

/-- Every element kept by `takeWhile` satisfies the predicate. -/
theorem takeWhile_pred {α : Type} {p : α → Bool} :
    ∀ {l : List α} {c : α}, c ∈ l.takeWhile p → p c = true := by
  intro l
  induction l with
  | nil => intro c hc; cases hc
  | cons a l ih =>
    intro c hc
    by_cases ha : p a = true
    · rw [List.takeWhile_cons, if_pos ha] at hc
      rcases List.mem_cons.mp hc with h | h
      · exact h ▸ ha
      · exact ih h
    · rw [List.takeWhile_cons, if_neg ha] at hc
      cases hc

/-- A site-native id as the resolver can ever produce one: a non-empty
ASCII digit run. -/
def validId (ds : Chars) : Prop :=
  ds ≠ [] ∧ ∀ c ∈ ds, c.isDigit = true

/-- The term `digitCapture` succeeds, capturing everything, on a valid id. -/
theorem digitCapture_eq {ds : Chars} (h : validId ds) :
    digitCapture ds = some ds := by
  have ht : ds.takeWhile Char.isDigit = ds := takeWhile_eq_self h.2
  simp [digitCapture, ht, h.1]

/-- What `digitCapture` returns is a valid id. -/
theorem digitCapture_valid {r ds : Chars} (h : digitCapture r = some ds) :
    validId ds := by
  simp only [digitCapture] at h
  by_cases he : (r.takeWhile Char.isDigit).isEmpty
  · simp [he] at h
  · simp [he] at h
    subst h
    exact ⟨by simpa [List.isEmpty_iff] using he, fun c hc => takeWhile_pred hc⟩

/-- Stripping a literal head from itself plus a tail leaves the tail. -/
theorem dropLead_append : ∀ (p u : Chars), dropLead p (p ++ u) = some u := by
  intro p u
  induction p with
  | nil => rfl
  | cons a p ih => simp [dropLead, ih]

/-- C9 (confirmed): `AuthorList::from_list` rejects (panics on) an empty
author list — modelled as `none` — and every `AuthorList` built by a
constructor has at least one author. -/
theorem authorlist_never_empty :
    AuthorList.from_list ([] : List Author) = none ∧
    (∀ (l : List Author) (al : AuthorList),
      AuthorList.from_list l = some al → 1 ≤ al.len) ∧
    (∀ a : Author, (AuthorList.new a).len = 1) := by
  refine ⟨rfl, ?_, fun a => rfl⟩
  intro l al h
  cases l with
  | nil => cases h
  | cons a rest =>
    cases h
    simp [AuthorList.len]

/-- Witness for C9: the second conjunct applied at a concrete, one-author
list. -/
theorem authorlist_never_empty_witness :
    1 ≤ (AuthorList.mk [Author.mk "A" "x:a"]).len :=
  authorlist_never_empty.2.1 [Author.mk "A" "x:a"] _ rfl

/-- Counterexample for C4: a 429 response whose `retry-after` header is
present but non-numeric does NOT produce the claimed 60-second default
wait and retry — `u64::from_str_radix(...).expect(...)` panics, with no
sleep performed and no response returned. -/
theorem client_nonnumeric_retry_panics :
    client_get [.response (HttpResponse.mk 429 (some (.str "abc")) "")] [] =
      .panicked [] := by
  decide

/-- The retry loop of `client_get` over a run of 429 responses whose
waits are defined: each 429 adds its wait and re-issues. -/
theorem client_get_loop (pre : List HttpResponse)
    (hpre : ∀ p ∈ pre, p.status = 429 ∧ (retryWait p.retryAfter).isSome) :
    ∀ (acc : List Nat) (tail : List FetchEvent),
      client_get (pre.map .response ++ tail) acc =
        client_get tail
          (acc ++ pre.map (fun p => (retryWait p.retryAfter).getD 0)) := by
  induction pre with
  | nil => intro acc tail; simp
  | cons p pre ih =>
    intro acc tail
    have h1 := hpre p (by simp)
    obtain ⟨n, hn⟩ := Option.isSome_iff_exists.mp h1.2
    have hrec := ih (fun q hq => hpre q (by simp [hq]))
    simp only [List.map_cons, List.cons_append]
    rw [show client_get
        (FetchEvent.response p :: (List.map FetchEvent.response pre ++ tail))
        acc = client_get (List.map FetchEvent.response pre ++ tail)
        (acc ++ [n]) from by simp [client_get, h1.1, hn]]
    rw [hrec (acc ++ [n]) tail]
    simp [hn]

/-- C4 (corrected): the client returns the first non-429 response
unmodified and propagates a transport error with no retry; each 429
response triggers a sleep of `retryWait` seconds and a re-issue of the
identical request; the 60-second default applies when the header is
absent or not valid UTF-8 (a present-but-non-numeric header panics
instead — see `client_nonnumeric_retry_panics`). -/
theorem client_get_spec (pre : List HttpResponse) (r : HttpResponse)
    (rest : List FetchEvent)
    (hpre : ∀ p ∈ pre, p.status = 429 ∧ (retryWait p.retryAfter).isSome) :
    (r.status ≠ 429 →
      client_get (pre.map .response ++ [.response r] ++ rest) [] =
        .ok (pre.map (fun p => (retryWait p.retryAfter).getD 0)) r) ∧
    client_get (pre.map .response ++ [.failed] ++ rest) [] =
      .transportErr (pre.map (fun p => (retryWait p.retryAfter).getD 0)) ∧
    retryWait none = some 60 ∧
    retryWait (some .notUtf8) = some 60 := by
  refine ⟨?_, ?_, by decide, by decide⟩
  · intro hr
    rw [List.append_assoc, client_get_loop pre hpre [] _]
    simp [client_get, hr]
  · rw [List.append_assoc, client_get_loop pre hpre [] _]
    simp [client_get]

/-- Witness for C4: two 429 responses (one with no header, one with
`retry-after: 5`) then a 200 response produce sleeps of 60 and 5 seconds
and return the 200 response. -/
theorem client_get_spec_witness :
    client_get
      [.response (HttpResponse.mk 429 none ""),
        .response (HttpResponse.mk 429 (some (.str "5")) ""),
        .response (HttpResponse.mk 200 none "body")] [] =
      .ok [60, 5] (HttpResponse.mk 200 none "body") := by
  have h := (client_get_spec
    [HttpResponse.mk 429 none "", HttpResponse.mk 429 (some (.str "5")) ""]
    (HttpResponse.mk 200 none "body") [] (by decide)).1 (by decide)
  simpa using h

/-- Counterexample for C5: the URL
`https://www.fanfiction.net/s/123` matches the `ffnet` rule, for which
no `StorySource` variant exists; classification PANICS (the
`_ => panic!("URL matched source {name}, which has not been fully
implemented")` arm) instead of returning a `BadSource`/`NoIdInSource`
error or a source — a third failure mode the claim excludes. -/
theorem from_url_ffnet_panics :
    StorySource.from_url "https://www.fanfiction.net/s/123".data = .panic := by
  decide

/-- C5 as amended (corrected): classification tries the ordered rules,
first match wins; it returns `BadSource` exactly when no rule matches;
`NoIdInSource` is never returned (every rule's pattern captures the id
whenever it matches at all); and the only further failure mode is the
panic on URLs matched by the `ffnet` rule, whose variant is
unimplemented — every other matched rule yields a source. -/
theorem from_url_classification (u : Chars) :
    (StorySource.from_url u = .err (.BadSource (String.mk u)) ↔
      RULES.find? (fun t => ruleMatches t u) = none) ∧
    (∀ url src, StorySource.from_url u ≠ .err (.NoIdInSource url src)) ∧
    (∀ t, RULES.find? (fun t => ruleMatches t u) = some t →
      (t = .ffnet → StorySource.from_url u = .panic) ∧
      (t ≠ .ffnet → ∃ s, StorySource.from_url u = .ok s)) := by
  refine ⟨?_, ?_, ?_⟩
  · constructor
    · intro h
      cases hf : RULES.find? (fun t => ruleMatches t u) with
      | none => rfl
      | some t =>
        have hm := List.find?_some hf
        simp only at hm
        cases t <;> simp only [StorySource.from_url, hf] at h <;>
          simp only [ruleMatches] at hm
        · obtain ⟨ds, hds⟩ := Option.isSome_iff_exists.mp hm
          rw [hds] at h; cases h
        · cases h
        · cases h
        · obtain ⟨ds, hds⟩ := Option.isSome_iff_exists.mp hm
          rw [hds] at h; cases h
        · obtain ⟨ds, hds⟩ := Option.isSome_iff_exists.mp hm
          rw [hds] at h; cases h
        · obtain ⟨ds, hds⟩ := Option.isSome_iff_exists.mp hm
          rw [hds] at h; cases h
    · intro h
      simp [StorySource.from_url, h]
  · intro url src h
    cases hf : RULES.find? (fun t => ruleMatches t u) with
    | none => simp [StorySource.from_url, hf] at h
    | some t =>
      have hm := List.find?_some hf
      simp only at hm
      cases t <;> simp only [StorySource.from_url, hf] at h <;>
        simp only [ruleMatches] at hm
      · obtain ⟨ds, hds⟩ := Option.isSome_iff_exists.mp hm
        rw [hds] at h; cases h
      · cases h
      · cases h
      · obtain ⟨ds, hds⟩ := Option.isSome_iff_exists.mp hm
        rw [hds] at h; cases h
      · obtain ⟨ds, hds⟩ := Option.isSome_iff_exists.mp hm
        rw [hds] at h; cases h
      · obtain ⟨ds, hds⟩ := Option.isSome_iff_exists.mp hm
        rw [hds] at h; cases h
  · intro t hf
    have hm := List.find?_some hf
    simp only at hm
    constructor
    · intro ht
      subst ht
      simp [StorySource.from_url, hf]
    · intro ht
      cases t with
      | ffnet => exact absurd rfl ht
      | ao3 =>
        simp only [ruleMatches] at hm
        obtain ⟨ds, hds⟩ := Option.isSome_iff_exists.mp hm
        exact ⟨.AO3 ds, by simp [StorySource.from_url, hf, hds]⟩
      | katalepsis =>
        exact ⟨.Katalepsis, by simp [StorySource.from_url, hf]⟩
      | rr =>
        simp only [ruleMatches] at hm
        obtain ⟨ds, hds⟩ := Option.isSome_iff_exists.mp hm
        exact ⟨.RoyalRoad ds, by simp [StorySource.from_url, hf, hds]⟩
      | sb =>
        simp only [ruleMatches] at hm
        obtain ⟨ds, hds⟩ := Option.isSome_iff_exists.mp hm
        exact ⟨.SpaceBattles ds, by simp [StorySource.from_url, hf, hds]⟩
      | sv =>
        simp only [ruleMatches] at hm
        obtain ⟨ds, hds⟩ := Option.isSome_iff_exists.mp hm
        exact ⟨.SufficientVelocity ds, by simp [StorySource.from_url, hf, hds]⟩

/-- Witness for C5's amended theorem: a no-match URL yields `BadSource`,
and a katalepsis URL (a matched, non-ffnet rule) yields a source. -/
theorem from_url_classification_witness :
    StorySource.from_url "ftp://nowhere".data =
      .err (.BadSource (String.mk "ftp://nowhere".data)) ∧
    ∃ s, StorySource.from_url "https://katalepsis.net".data = .ok s :=
  ⟨(from_url_classification "ftp://nowhere".data).1.mpr (by decide),
    ((from_url_classification "https://katalepsis.net".data).2.2 .katalepsis
      (by decide)).2 (by decide)⟩

/-- Whatever `forumTail` captures is a valid id. -/
theorem forumTail_valid {r ds : Chars} (h : forumTail r = some ds) :
    validId ds := by
  simp only [forumTail] at h
  split at h
  · exact digitCapture_valid h
  · split at h
    · split at h
      · rename_i hx
        cases h
        exact digitCapture_valid hx
      · exact digitCapture_valid h
    · exact digitCapture_valid h

/-- Whatever `captureAO3` captures is a valid id. -/
theorem captureAO3_valid {u ds : Chars} (h : captureAO3 u = some ds) :
    validId ds := by
  simp only [captureAO3, Option.bind_eq_bind, Option.bind_eq_some] at h
  obtain ⟨r1, _, r2, _, r3, _, h4⟩ := h
  exact digitCapture_valid h4

/-- Whatever `captureRR` captures is a valid id. -/
theorem captureRR_valid {u ds : Chars} (h : captureRR u = some ds) :
    validId ds := by
  simp only [captureRR, Option.bind_eq_bind, Option.bind_eq_some] at h
  obtain ⟨r1, _, r2, _, r3, _, h4⟩ := h
  exact digitCapture_valid h4

/-- Whatever `captureSB` captures is a valid id. -/
theorem captureSB_valid {u ds : Chars} (h : captureSB u = some ds) :
    validId ds := by
  simp only [captureSB, Option.bind_eq_bind, Option.bind_eq_some] at h
  obtain ⟨r1, _, r2, _, h3⟩ := h
  exact forumTail_valid h3

/-- Whatever `captureSV` captures is a valid id. -/
theorem captureSV_valid {u ds : Chars} (h : captureSV u = some ds) :
    validId ds := by
  simp only [captureSV, Option.bind_eq_bind, Option.bind_eq_some] at h
  obtain ⟨r1, _, r2, _, h3⟩ := h
  exact forumTail_valid h3

/-- On a bare valid id (as in the canonical forum URLs, which have no
`name.` part), `forumTail` skips the optional group and captures the
whole id. -/
theorem forumTail_digits {ds : Chars} (h : validId ds) :
    forumTail ds = some ds := by
  have hnd : ds.takeWhile (fun c => decide (c ≠ '.')) = ds := by
    refine takeWhile_eq_self (fun c hc => ?_)
    have hd := h.2 c hc
    simp only [decide_eq_true_eq]
    intro hc'
    rw [hc'] at hd
    cases hd
  simp only [forumTail, hnd]
  rw [if_neg (by simpa [List.isEmpty_iff] using h.1), List.drop_length]
  exact digitCapture_eq h

/-- The term `captureAO3` round-trips on the canonical AO3 URL of a valid id. -/
theorem captureAO3_roundtrip {ds : Chars} (h : validId ds) :
    captureAO3 ("https://archiveofourown.org/works/".data ++ ds) = some ds := by
  have hred : captureAO3 ("https://archiveofourown.org/works/".data ++ ds) =
      digitCapture ds := rfl
  rw [hred]
  exact digitCapture_eq h

/-- The term `captureRR` round-trips on the canonical RoyalRoad URL of a valid
id. -/
theorem captureRR_roundtrip {ds : Chars} (h : validId ds) :
    captureRR ("https://www.royalroad.com/fiction/".data ++ ds) = some ds := by
  have hred : captureRR ("https://www.royalroad.com/fiction/".data ++ ds) =
      digitCapture ds := rfl
  rw [hred]
  exact digitCapture_eq h

/-- The term `captureSB` round-trips on the canonical SpaceBattles URL of a valid
id. -/
theorem captureSB_roundtrip {ds : Chars} (h : validId ds) :
    captureSB ("https://forums.spacebattles.com/threads/".data ++ ds) =
      some ds := by
  have hred : captureSB ("https://forums.spacebattles.com/threads/".data ++ ds)
      = forumTail ds := rfl
  rw [hred]
  exact forumTail_digits h

/-- The term `captureSV` round-trips on the canonical SufficientVelocity URL of a
valid id. -/
theorem captureSV_roundtrip {ds : Chars} (h : validId ds) :
    captureSV ("https://forums.sufficientvelocity.com/threads/".data ++ ds) =
      some ds := by
  have hred : captureSV
      ("https://forums.sufficientvelocity.com/threads/".data ++ ds) =
      forumTail ds := rfl
  rw [hred]
  exact forumTail_digits h

/-- C3 (confirmed): classifying any URL, mapping the resulting source to
its canonical URL, and classifying again gives back the same source —
`from_url (to_url s) = ok s` for every source `s` the resolver
recognizes (in particular `to_id` agrees across the round trip). -/
theorem from_url_to_url_roundtrip (u : Chars) (s : StorySource)
    (h : StorySource.from_url u = .ok s) :
    StorySource.from_url s.to_url = .ok s := by
  cases hf : RULES.find? (fun t => ruleMatches t u) with
  | none => simp [StorySource.from_url, hf] at h
  | some t =>
    cases t with
    | ao3 =>
      simp only [StorySource.from_url, hf] at h
      cases hcap : captureAO3 u with
      | none => rw [hcap] at h; cases h
      | some ds =>
        rw [hcap] at h
        cases h
        have hrt := captureAO3_roundtrip (captureAO3_valid hcap)
        have hgoal : (StorySource.AO3 ds).to_url =
            "https://archiveofourown.org/works/".data ++ ds := rfl
        rw [hgoal]
        generalize hT : "https://archiveofourown.org/works/".data ++ ds = T
          at hrt ⊢
        simp [StorySource.from_url, RULES, List.find?, ruleMatches, hrt]
    | ffnet =>
      simp only [StorySource.from_url, hf] at h
      cases h
    | katalepsis =>
      simp only [StorySource.from_url, hf] at h
      cases h
      decide
    | rr =>
      simp only [StorySource.from_url, hf] at h
      cases hcap : captureRR u with
      | none => rw [hcap] at h; cases h
      | some ds =>
        rw [hcap] at h
        cases h
        have hrt := captureRR_roundtrip (captureRR_valid hcap)
        have h1 : captureAO3 ("https://www.royalroad.com/fiction/".data ++ ds)
            = none := rfl
        have h2 : captureFfnet ("https://www.royalroad.com/fiction/".data ++ ds)
            = none := rfl
        have h3 : matchKatalepsis
            ("https://www.royalroad.com/fiction/".data ++ ds) = false := rfl
        have hgoal : (StorySource.RoyalRoad ds).to_url =
            "https://www.royalroad.com/fiction/".data ++ ds := rfl
        rw [hgoal]
        generalize hT : "https://www.royalroad.com/fiction/".data ++ ds = T
          at hrt h1 h2 h3 ⊢
        simp [StorySource.from_url, RULES, List.find?, ruleMatches, hrt,
          h1, h2, h3]
    | sb =>
      simp only [StorySource.from_url, hf] at h
      cases hcap : captureSB u with
      | none => rw [hcap] at h; cases h
      | some ds =>
        rw [hcap] at h
        cases h
        have hrt := captureSB_roundtrip (captureSB_valid hcap)
        have h1 : captureAO3
            ("https://forums.spacebattles.com/threads/".data ++ ds) = none :=
          rfl
        have h2 : captureFfnet
            ("https://forums.spacebattles.com/threads/".data ++ ds) = none :=
          rfl
        have h3 : matchKatalepsis
            ("https://forums.spacebattles.com/threads/".data ++ ds) = false :=
          rfl
        have h4 : captureRR
            ("https://forums.spacebattles.com/threads/".data ++ ds) = none :=
          rfl
        have hgoal : (StorySource.SpaceBattles ds).to_url =
            "https://forums.spacebattles.com/threads/".data ++ ds := rfl
        rw [hgoal]
        generalize hT :
          "https://forums.spacebattles.com/threads/".data ++ ds = T
          at hrt h1 h2 h3 h4 ⊢
        simp [StorySource.from_url, RULES, List.find?, ruleMatches, hrt,
          h1, h2, h3, h4]
    | sv =>
      simp only [StorySource.from_url, hf] at h
      cases hcap : captureSV u with
      | none => rw [hcap] at h; cases h
      | some ds =>
        rw [hcap] at h
        cases h
        have hrt := captureSV_roundtrip (captureSV_valid hcap)
        have h1 : captureAO3
            ("https://forums.sufficientvelocity.com/threads/".data ++ ds) =
            none := rfl
        have h2 : captureFfnet
            ("https://forums.sufficientvelocity.com/threads/".data ++ ds) =
            none := rfl
        have h3 : matchKatalepsis
            ("https://forums.sufficientvelocity.com/threads/".data ++ ds) =
            false := rfl
        have h4 : captureRR
            ("https://forums.sufficientvelocity.com/threads/".data ++ ds) =
            none := rfl
        have h5 : captureSB
            ("https://forums.sufficientvelocity.com/threads/".data ++ ds) =
            none := rfl
        have hgoal : (StorySource.SufficientVelocity ds).to_url =
            "https://forums.sufficientvelocity.com/threads/".data ++ ds := rfl
        rw [hgoal]
        generalize hT :
          "https://forums.sufficientvelocity.com/threads/".data ++ ds = T
          at hrt h1 h2 h3 h4 h5 ⊢
        simp [StorySource.from_url, RULES, List.find?, ruleMatches, hrt,
          h1, h2, h3, h4, h5]

/-- Witness for C3: classifying a concrete AO3 URL and re-classifying
its canonical URL returns the same source. -/
theorem from_url_to_url_roundtrip_witness :
    StorySource.from_url (StorySource.AO3 "123".data).to_url =
      .ok (.AO3 "123".data) :=
  from_url_to_url_roundtrip "https://archiveofourown.org/works/123".data
    (.AO3 "123".data) (by decide)

/-- The term `insertChapterRow` touches only the `chapters` table. -/
theorem insertChapterRow_part {db : DBState} {r : ChapterRow} {db1 : DBState}
    (h : insertChapterRow db r = some db1) :
    contentFreePart db1 = contentFreePart db := by
  unfold insertChapterRow at h
  split at h
  · cases h
  · cases h
    rfl

/-- The term `save_content` touches only the `chapters` table (a Section
panics before writing; a Chapter writes a chapters row). -/
theorem save_content_part : ∀ (c : Content) (db : DBState) (sid : String)
    (pid : Option String),
    contentFreePart (save_content db c sid pid).2 = contentFreePart db
  | .sect _ _ _ _ _ _, _, _, _ => rfl
  | .chapter id n d t u dp a, db, sid, pid => by
    simp only [save_content]
    cases hins : insertChapterRow db
        ⟨id, n, d, t.as_str, u, dp, sid, pid, a.map (fun x => x.id)⟩ with
    | none => rfl
    | some db1 => exact insertChapterRow_part hins

/-- The list fold of `save_content` touches only the `chapters` table. -/
theorem save_content_list_part : ∀ (cs : List Content) (db : DBState)
    (sid : String) (pid : Option String),
    contentFreePart (save_content_list db cs sid pid).2 = contentFreePart db
  | [], _, _, _ => rfl
  | c :: rest, db, sid, pid => by
    simp only [save_content_list]
    cases hc : save_content db c sid pid with
    | mk res db1 =>
      have h2 : contentFreePart db1 = contentFreePart db := by
        have := save_content_part c db sid pid
        rw [hc] at this
        exact this
      cases res with
      | ok a =>
        rw [save_content_list_part rest db1 sid pid]
        exact h2
      | err e => exact h2
      | panic => exact h2

/-- The save loop of `update_story`'s diff path touches only the
`sections` and `chapters` tables. -/
theorem save_new_chapters_part (ns : Story) : ∀ (db : DBState)
    (ids : List String) (added : Nat)
    (saves : List (String × String × Option String)),
    contentFreePart (save_new_chapters ns db ids added saves).2.1 =
      contentFreePart db := by
  intro db ids
  induction ids generalizing db with
  | nil => intro added saves; rfl
  | cons id rest ih =>
    intro added saves
    simp only [save_new_chapters]
    cases hfind : ns.find_chapter id with
    | none => rfl
    | some fp =>
      obtain ⟨found, parent⟩ := fp
      dsimp only
      cases hc : save_content db found ns.source.to_id
          (parent.map Content.id) with
      | mk res db1 =>
        have h2 : contentFreePart db1 = contentFreePart db := by
          have := save_content_part found db ns.source.to_id
            (parent.map Content.id)
          rw [hc] at this
          exact this
        cases res with
        | ok a =>
          dsimp only
          rw [ih db1 _ _]
          exact h2
        | err e => exact h2
        | panic => exact h2

/-- The non-force `update_story` path never writes to the `stories`
table (it persists new nodes only through `save_content`). -/
theorem update_story_nonforce_stories (source : StorySource) (db : DBState)
    (g : ParserOracle) :
    (update_story source false db g).db.stories = db.stories := by
  simp only [update_story, Bool.false_eq_true, if_false]
  cases hg : get_story_by_id db source.to_id with
  | panic => rfl
  | err e => rfl
  | ok o =>
    cases o with
    | none => rfl
    | some existing =>
      cases hs : g.getSkeleton with
      | error e => rfl
      | ok fresh =>
        simp only
        by_cases hn : (new_chapter_ids existing fresh).isEmpty
        · rw [if_pos hn]
        · rw [if_neg hn]
          cases hf : g.fill fresh with
          | error e => rfl
          | ok ns =>
            simp only
            cases hl : save_new_chapters ns db (new_chapter_ids existing fresh)
                0 [] with
            | mk res rest =>
              cases rest with
              | mk db1 saves =>
                have := save_new_chapters_part ns db
                  (new_chapter_ids existing fresh) 0 []
                rw [hl] at this
                exact congrArg (fun t => t.1) this

/-- C1 (confirmed): on the non-force update path the computed new-id
list is, as a set, exactly the flattened fresh ids minus the flattened
persisted ids, and when that set difference is empty the update is a
no-op — result 0, no `fill_skeleton` call, no `save_content` call, and
an unchanged database. -/
theorem update_diff_is_set_difference (db : DBState) (source : StorySource)
    (g : ParserOracle) (existing fresh : Story)
    (hget : get_story_by_id db source.to_id = .ok (some existing))
    (hskel : g.getSkeleton = .ok fresh) :
    (new_chapter_ids existing fresh).toFinset =
      (storyIds fresh.chapters).toFinset \
        (storyIds existing.chapters).toFinset ∧
    ((storyIds fresh.chapters).toFinset \
        (storyIds existing.chapters).toFinset = ∅ →
      update_story source false db g =
        ⟨.ok 0, db, 0, []⟩) := by
  have hset : (new_chapter_ids existing fresh).toFinset =
      (storyIds fresh.chapters).toFinset \
        (storyIds existing.chapters).toFinset := by
    ext a
    simp [new_chapter_ids, List.mem_filter]
  refine ⟨hset, ?_⟩
  intro hdiff
  have hnil : new_chapter_ids existing fresh = [] := by
    have h0 : (new_chapter_ids existing fresh).toFinset = ∅ := by
      rw [hset, hdiff]
    rcases hn : new_chapter_ids existing fresh with _ | ⟨x, xs⟩
    · rfl
    · exfalso
      rw [hn] at h0
      have : x ∈ (x :: xs).toFinset := by simp
      rw [h0] at this
      cases this
  simp [update_story, hget, hskel, hnil]

/-- Witness for C1: a story whose fresh skeleton has no new ids — the
non-force update returns 0 added chapters, performs no hydration and no
save, and leaves the database untouched. -/
theorem update_diff_is_set_difference_witness :
    update_story (.RoyalRoad ['1']) false exDb exOracleSame =
      ⟨.ok 0, exDb, 0, []⟩ :=
  (update_diff_is_set_difference exDb (.RoyalRoad ['1']) exOracleSame
    exExisting exFreshSame rfl rfl).2 (by decide)

/-- C6 (confirmed): when a story with the URL's canonical id is already
persisted, `add_story` runs the non-force `update_story` instead of
inserting, and the `stories` table is left exactly as it was — no second
row with that id can appear. -/
theorem add_existing_is_update (source : StorySource) (db : DBState)
    (g : ParserOracle) (h : story_exists_with_id db source.to_id = true) :
    add_story source db g =
      { result := (update_story source false db g).result.map (fun _ => ())
        db := (update_story source false db g).db
        fills := (update_story source false db g).fills
        saves := (update_story source false db g).saves } ∧
    (add_story source db g).db.stories = db.stories := by
  have h1 : add_story source db g =
      { result := (update_story source false db g).result.map (fun _ => ())
        db := (update_story source false db g).db
        fills := (update_story source false db g).fills
        saves := (update_story source false db g).saves } := by
    simp only [add_story, h, if_true]
  refine ⟨h1, ?_⟩
  rw [h1]
  exact update_story_nonforce_stories source db g

/-- Witness for C6: adding the already-present story `rr:1` again leaves
the `stories` table unchanged. -/
theorem add_existing_is_update_witness :
    (add_story (.RoyalRoad ['1']) exDb exOracleSame).db.stories =
      exDb.stories :=
  (add_existing_is_update (.RoyalRoad ['1']) exDb exOracleSame (by decide)).2

/-- C8 (confirmed): when the fresh skeleton has at least one new id and
any chapter-page fetch of the hydration batch fails,
`RoyalRoadParser::fill_skeleton` aggregates the failure into
`Internal("Oopsie!")`, `update_story` returns that error, performs no
`save_content` call, and leaves every persisted row unchanged. -/
theorem failed_hydration_aborts_update (db : DBState) (source : StorySource)
    (existing fresh : Story)
    (fetch : String → Except ArchiveError String) (extract : String → String)
    (hget : get_story_by_id db source.to_id = .ok (some existing))
    (hnew : (new_chapter_ids existing fresh).isEmpty = false)
    (hfail : ∃ url ∈ topChapterUrls fresh, ∃ e, fetch url = .error e) :
    update_story source false db ⟨.ok fresh, rr_fill_skeleton fetch extract⟩ =
      ⟨.err (.Internal "Oopsie!"), db, 1, []⟩ := by
  have hfill : rr_fill_skeleton fetch extract fresh =
      .error (.Internal "Oopsie!") := by
    obtain ⟨url, hmem, e, he⟩ := hfail
    have hany : ((topChapterUrls fresh).map fetch).any
        (fun r => match r with | .error _ => true | .ok _ => false) = true := by
      rw [List.any_eq_true]
      exact ⟨fetch url, List.mem_map_of_mem fetch hmem, by rw [he]⟩
    simp only [rr_fill_skeleton, hany, if_true]
  simp [update_story, hget, hnew, hfill]

/-- Witness for C8: updating `rr:1` with a skeleton containing the new
chapter `rr:1:2` whose page fetch fails returns the aggregated error and
changes nothing. -/
theorem failed_hydration_aborts_update_witness :
    update_story (.RoyalRoad ['1']) false exDb
      ⟨.ok exFreshNew, rr_fill_skeleton exFetch exExtract⟩ =
      ⟨.err (.Internal "Oopsie!"), exDb, 1, []⟩ :=
  failed_hydration_aborts_update exDb (.RoyalRoad ['1']) exExisting exFreshNew
    exFetch exExtract rfl rfl ⟨"u2", by decide, .Request, rfl⟩

/-- C7's failing input, evaluated (code_bug): force-refreshing the
already-persisted story `rr:1` runs the full fetch and then
`save_story`, whose plain `INSERT INTO stories` hits the existing
primary key; the `.unwrap()` panics, so the operation does not succeed
and nothing is overwritten — there are no overwrite semantics. -/
theorem force_update_existing_panics :
    update_story (.RoyalRoad ['1']) true exDb
      ⟨.ok exExisting, fun st => .ok st⟩ =
      ⟨.panic, exDb, 1, []⟩ := rfl

/-- C2's failing input, evaluated (code_bug): the claimed save-then-load
round trip fails twice over.  Persisting `exStory2` (one section
containing one chapter) is impossible: `save_story` panics on its
malformed stories INSERT (six bound values for five placeholders) before
writing anything, and the sections INSERT is itself malformed (seven
placeholders for six named columns).  And on a database `exDb2` that
already holds exactly those rows, the reconstruction loops — which run
over `(0..len - 1).rev()` and so never process the LAST chapter row and
the LAST section row — leave the chapter detached at top level and the
section childless: not isomorphic to the tree the rows describe. -/
theorem reconstruction_detaches_last_row :
    (save_story emptyDb exStory2).1 = .panic ∧
    exStory2.chapters = [.sect "rr:2:s1" "Sec1" none
      [.chapter "rr:2:c1" "C1" none (.Hydrated "t") "u" "d" none] none none] ∧
    get_story_by_id exDb2 "rr:2" =
      .ok (some
        { name := "S2"
          authors := ⟨[⟨"Auth2", "rr:a2"⟩]⟩
          description := none
          url := "https://www.royalroad.com/fiction/2"
          tags := []
          chapters := [.chapter "rr:2:c1" "C1" none (.Hydrated "t") "u" "d"
              none,
            .sect "rr:2:s1" "Sec1" none [] none none]
          source := .RoyalRoad ['2']
          completed := .Unknown }) :=
  ⟨rfl, rfl, by rfl⟩

/-- The term `insertAuthorIgnore` leaves the `stories` table alone. -/
theorem insertAuthorIgnore_stories (db : DBState) (a : Author) :
    (insertAuthorIgnore db a).stories = db.stories := by
  unfold insertAuthorIgnore
  split <;> rfl

/-- The term `insertAuthorIgnore` leaves the `story_authors` table alone. -/
theorem insertAuthorIgnore_sa (db : DBState) (a : Author) :
    (insertAuthorIgnore db a).story_authors = db.story_authors := by
  unfold insertAuthorIgnore
  split <;> rfl

/-- The author loop of `save_story` leaves the `stories` table alone. -/
theorem foldl_insertAuthor_stories : ∀ (l : List Author) (db : DBState),
    (l.foldl insertAuthorIgnore db).stories = db.stories
  | [], _ => rfl
  | a :: rest, db => by
    rw [List.foldl_cons, foldl_insertAuthor_stories rest _,
      insertAuthorIgnore_stories]

/-- The author loop of `save_story` leaves `story_authors` alone. -/
theorem foldl_insertAuthor_sa : ∀ (l : List Author) (db : DBState),
    (l.foldl insertAuthorIgnore db).story_authors = db.story_authors
  | [], _ => rfl
  | a :: rest, db => by
    rw [List.foldl_cons, foldl_insertAuthor_sa rest _, insertAuthorIgnore_sa]

/-- Rows already in `authors` survive an `insertAuthorIgnore`. -/
theorem insertAuthorIgnore_mono {db : DBState} {r : AuthorRow}
    (h : r ∈ db.authors) (a : Author) : r ∈ (insertAuthorIgnore db a).authors := by
  unfold insertAuthorIgnore
  split
  · exact h
  · simpa using Or.inl h

/-- After an `insertAuthorIgnore`, some row carries the author's id. -/
theorem insertAuthorIgnore_has (db : DBState) (a : Author) :
    ∃ r ∈ (insertAuthorIgnore db a).authors, r.id = a.id := by
  unfold insertAuthorIgnore
  split
  · next h =>
    obtain ⟨r, hr, hid⟩ := List.any_eq_true.mp h
    exact ⟨r, hr, by simpa using hid⟩
  · exact ⟨⟨a.id, a.name⟩, by simp, rfl⟩

/-- Rows already in `authors` survive the whole author loop. -/
theorem foldl_insertAuthor_mono : ∀ (l : List Author) {db : DBState}
    {r : AuthorRow}, r ∈ db.authors →
    r ∈ (l.foldl insertAuthorIgnore db).authors
  | [], _, _, h => h
  | a :: rest, db, r, h => by
    rw [List.foldl_cons]
    exact foldl_insertAuthor_mono rest (insertAuthorIgnore_mono h a)

/-- After the author loop, every listed author has a row with its id. -/
theorem foldl_insertAuthor_has : ∀ (l : List Author) (db : DBState),
    ∀ a ∈ l, ∃ r ∈ (l.foldl insertAuthorIgnore db).authors, r.id = a.id
  | [], _, a, ha => absurd ha (List.not_mem_nil a)
  | x :: rest, db, a, ha => by
    rw [List.foldl_cons]
    rcases List.mem_cons.mp ha with h | h
    · subst h
      obtain ⟨r, hr, hid⟩ := insertAuthorIgnore_has db a
      exact ⟨r, foldl_insertAuthor_mono rest hr, hid⟩
    · exact foldl_insertAuthor_has rest _ a h

/-- On a table whose id column is duplicate-free, filtering by one id
yields at most one row. -/
theorem filter_by_id_length_le_one : ∀ {l : List AuthorRow},
    (l.map AuthorRow.id).Nodup → ∀ v : String,
    (l.filter (fun a => a.id = v)).length ≤ 1
  | [], _, v => by simp
  | r :: rest, h, v => by
    rw [List.map_cons, List.nodup_cons] at h
    by_cases hv : r.id = v
    · have hrest : rest.filter (fun a => a.id = v) = [] := by
        rw [List.filter_eq_nil_iff]
        intro x hx
        simp only [decide_eq_true_eq]
        intro hx'
        exact h.1 (List.mem_map.mpr ⟨x, hx, by rw [hx', hv]⟩)
      simp [List.filter_cons, hv, hrest]
    · simp only [List.filter_cons, decide_eq_true_eq, hv, if_false]
      exact filter_by_id_length_le_one h.2 v

/-- The term `flatMap` with the separator-replacement body is the identity on a
separator-free list. -/
theorem flatMap_no_sep : ∀ (l : Chars), ';' ∉ l →
    (l.flatMap (fun c => if c = ';' then [',', ' '] else [c])) = l
  | [], _ => rfl
  | c :: rest, h => by
    have hc : ¬ c = ';' := fun e => h (e ▸ List.mem_cons_self c rest)
    rw [List.flatMap_cons, if_neg hc,
      flatMap_no_sep rest (fun e => h (List.mem_cons_of_mem c e)),
      List.singleton_append]

/-- The term `String::replace(';', ", ")` is the identity on a separator-free
string. -/
theorem sepReplace_id {s : String} (h : ';' ∉ s.data) : sepReplace s = s := by
  unfold sepReplace
  rw [flatMap_no_sep s.data h]

/-- Counterexample for C10: at the concrete two-author story `exStory10`
the claim fails — `save_story` does NOT write the first author's id into
a stories row: the stories INSERT binds six values to five placeholders,
rusqlite reports `InvalidParameterCount`, the `.unwrap()` panics, and no
stories row is written at all (the authors themselves do reach the
`authors` table first). -/
theorem save_story_never_writes_story_row :
    (save_story emptyDb exStory10).1 = .panic ∧
    (save_story emptyDb exStory10).2.stories = [] ∧
    (save_story emptyDb exStory10).2.authors =
      [⟨"x:a1", "A1"⟩, ⟨"x:a2", "A2"⟩] :=
  ⟨rfl, rfl, rfl⟩

/-- C10 as amended (corrected): `save_story` inserts every listed author
into the `authors` table and never writes `story_authors` (no code path
does), but it always panics on the stories INSERT — five named columns,
six bound values — before writing any stories row, so it records no
`author_id` at all; and the author resolution of `get_story_by_id`,
reading a stories row whose `author_id` column holds one separator-free
id, returns at most the single author whose id equals that entire
value, so authors beyond the first would in any case not be reachable
from the story. -/
theorem save_story_author_effects (db : DBState) (story : Story) :
    (save_story db story).1 = .panic ∧
    (save_story db story).2.stories = db.stories ∧
    (save_story db story).2.story_authors = db.story_authors ∧
    (∀ a ∈ story.authors.authors,
      ∃ r ∈ (save_story db story).2.authors, r.id = a.id) ∧
    (∀ (db2 : DBState) (id : String) (row : StoryRow),
      db2.stories.find? (fun r => r.id = id) = some row →
      ';' ∉ row.author_id.data →
      (db2.authors.map AuthorRow.id).Nodup →
      ∃ l, get_story_authors db2 id = some l ∧ l.length ≤ 1 ∧
        ∀ x ∈ l, x.id = row.author_id) := by
  refine ⟨rfl, ?_, ?_, ?_, ?_⟩
  · exact foldl_insertAuthor_stories story.authors.authors db
  · exact foldl_insertAuthor_sa story.authors.authors db
  · intro a ha
    exact foldl_insertAuthor_has story.authors.authors db a ha
  · intro db2 id row hfind hsep hnodup
    refine ⟨(db2.authors.filter (fun a => a.id = row.author_id)).map
      (fun r => Author.mk r.name r.id), ?_, ?_, ?_⟩
    · unfold get_story_authors
      rw [hfind]
      dsimp only
      rw [sepReplace_id hsep]
    · rw [List.length_map]
      exact filter_by_id_length_le_one hnodup row.author_id
    · intro x hx
      obtain ⟨r, hr, hxr⟩ := List.mem_map.mp hx
      have hmf := List.mem_filter.mp hr
      subst hxr
      exact of_decide_eq_true hmf.2

/-- Witness for C10's amended theorem: the panic-and-authors-only part
applied at `exStory10` over the empty database, and the author
resolution applied at the concrete database `exDb`, whose stories row
holds the single author id `rr:a1`. -/
theorem save_story_author_effects_witness :
    ∃ l, get_story_authors exDb "rr:1" = some l ∧ l.length ≤ 1 ∧
      ∀ x ∈ l, x.id = "rr:a1" :=
  (save_story_author_effects emptyDb exStory10).2.2.2.2 exDb "rr:1"
    ⟨"rr:1", "Story", none, "https://www.royalroad.com/fiction/1", "rr:a1",
      "COMPLETE"⟩ rfl (by decide) (by decide)
